import Mathlib

/-!
# VertiLog: session queries and user handlers

A shallow embedding of `backend/models/session.go` and
`backend/handlers/userHandler.go`.

The session functions build a GORM statement and run it against the storage
engine.  The tables are lists of rows, a statement is a record of its clauses,
and the finisher methods (`Find`, `Take`, `Scan`) evaluate the clauses in the
order SQL gives them: join, where, group, order, offset, limit.
-/

namespace VertiLog

/-! ## Data model -/

/-- A `time.Time` value, as an instant on a totally ordered time line. -/
abbrev Time := Int

/-- Stand-in for the `String` method of `time.Time`, used only inside one error text. -/
def Time.String (t : Time) : String := toString t

/-- Modelled from the spec: the Climb entity (`models.Climb` is not among the sources).
A climb is owned by one session through `SessionID`, carries a numeric `Load`, and has
the `created_at` column the preload of `FindByID` orders by.  `Load` is the value stored in
column `load`, an exact number whatever the column type (integer, decimal or binary). -/
structure Climb where
  ID : Int
  SessionID : Int
  CreatedAt : Time
  Load : ℚ
deriving DecidableEq

/-- One row of table `sessions`: the columns of `Session` (`Climbs` is a relationship,
not a column). -/
structure SessionRow where
  ID : Int
  Date : Time
  CreatedAt : Time
  UpdatedAt : Time
  UserID : Int
  Notes : String
deriving DecidableEq

/-- The Go struct `Session`. -/
structure Session where
  ID : Int
  Date : Time
  CreatedAt : Time
  UpdatedAt : Time
  UserID : Int
  Climbs : List Climb
  Notes : String
deriving DecidableEq

/-- The Go type `float64`: an IEEE 754 binary64 value by its sign bit, its 11 bit biased
exponent and its 52 bit fraction. -/
structure Float64 where
  sign : Bool
  exponent : Fin 2048
  fraction : Fin 4503599627370496
deriving DecidableEq

/-- The number a `float64` stands for; none for the infinities and NaN (exponent 2047).
Exponent 0 holds the subnormals `fraction / 2^1074`; any other exponent `e` holds
`(2^52 + fraction) * 2^(e - 1075)`. -/
def Float64.toRat? (x : Float64) : Option ℚ :=
  if x.exponent.val = 2047 then none
  else if x.exponent.val = 0 then
    some ((if x.sign then -1 else 1) * ((x.fraction.val : ℚ) / 2 ^ 1074))
  else if x.exponent.val < 1075 then
    some ((if x.sign then -1 else 1) *
      (((4503599627370496 + x.fraction.val : Nat) : ℚ) / 2 ^ (1075 - x.exponent.val)))
  else
    some ((if x.sign then -1 else 1) *
      (((4503599627370496 + x.fraction.val : Nat) : ℚ) * 2 ^ (x.exponent.val - 1075)))

/-- The Go struct `SessionSummary`. -/
structure SessionSummary where
  ID : Int
  Date : Time
  Load : Float64
deriving DecidableEq

/-- The column values of a `Session` value. -/
def Session.row (s : Session) : SessionRow :=
  { ID := s.ID, Date := s.Date, CreatedAt := s.CreatedAt, UpdatedAt := s.UpdatedAt,
    UserID := s.UserID, Notes := s.Notes }

/-- Scanning a row into a `Session` whose `Climbs` field is then set by the preload. -/
def SessionRow.load (r : SessionRow) (climbs : List Climb) : Session :=
  { ID := r.ID, Date := r.Date, CreatedAt := r.CreatedAt, UpdatedAt := r.UpdatedAt,
    UserID := r.UserID, Climbs := climbs, Notes := r.Notes }

/-- The tables `sessions` and `climbs`. -/
structure Store where
  sessions : List SessionRow
  climbs : List Climb

/-- The tag `gorm:"primaryKey"` on `Session.ID`: no two rows of `sessions` share an id. -/
def Store.PrimaryKey (st : Store) : Prop := (st.sessions.map SessionRow.ID).Nodup

instance (st : Store) : Decidable st.PrimaryKey := by
  unfold Store.PrimaryKey; infer_instance

/-! ## Errors -/

/-- Go `error` values: a plain error, or `errors.Wrap cause message`. -/
inductive Error where
  | base (msg : String)
  | wrap (cause : Error) (msg : String)
deriving DecidableEq

/-- The text of the `Error()` method; `errors.Wrap` puts its message before the text of
the cause. -/
def Error.message : Error → String
  | .base m => m
  | .wrap c m => m ++ ": " ++ c.message

/-- The error directly wrapped, `errors.Unwrap`. -/
def Error.Unwrap : Error → Option Error
  | .base _ => none
  | .wrap c _ => some c

/-- The value `gorm.ErrRecordNotFound`. -/
def ErrRecordNotFound : Error := .base "record not found"

/-- The `*gorm.DB` handle: the storage engine either serves queries over its tables, or
every query on it fails with a storage error. -/
inductive DB where
  | up (store : Store)
  | down (err : Error)

/-! ## Statements -/

/-- Integer-valued columns of table `sessions` that conditions name. -/
inductive Column where
  | id
  | date
  | created_at
  | updated_at
  | user_id
deriving DecidableEq

/-- The value of a column in a row. -/
def SessionRow.col (r : SessionRow) : Column → Int
  | .id => r.ID
  | .date => r.Date
  | .created_at => r.CreatedAt
  | .updated_at => r.UpdatedAt
  | .user_id => r.UserID

/-- Conditions of a `Where` call: `col = ?`, `col BETWEEN ? AND ?`, and `AND`. -/
inductive Cond where
  | eq (c : Column) (v : Int)
  | between (c : Column) (lo hi : Int)
  | and (a b : Cond)

/-- Whether a row satisfies a condition; `BETWEEN` includes both bounds. -/
def Cond.holds : Cond → SessionRow → Bool
  | .eq c v, r => decide (r.col c = v)
  | .between c lo hi, r => decide (lo ≤ r.col c) && decide (r.col c ≤ hi)
  | .and a b, r => a.holds r && b.holds r

/-- The Limit, Offset and Order clauses of one query. -/
structure Scope where
  limit : Option Int := none
  offset : Option Int := none
  orderCreatedAtDesc : Bool := false

/-- The call `Limit(n)`. -/
def Scope.Limit (sc : Scope) (n : Int) : Scope := { sc with limit := some n }

/-- The call `Offset(n)`. -/
def Scope.Offset (sc : Scope) (n : Int) : Scope := { sc with offset := some n }

/-- The call `Order("created_at DESC")`. -/
def Scope.Order (sc : Scope) : Scope := { sc with orderCreatedAtDesc := true }

/-- Stable sort by a key, largest first: `ORDER BY key DESC`. -/
def orderDesc {α : Type} (key : α → Int) (rows : List α) : List α :=
  rows.insertionSort (fun a b => key b ≤ key a)

/-- The clause `OFFSET n`, which GORM writes only for a positive `n`. -/
def applyOffset {α : Type} (offset : Option Int) (rows : List α) : List α :=
  match offset with
  | some n => if 0 < n then rows.drop n.toNat else rows
  | none => rows

/-- The clause `LIMIT n`, which GORM writes only for a non-negative `n`. -/
def applyLimit {α : Type} (limit : Option Int) (rows : List α) : List α :=
  match limit with
  | some n => if 0 ≤ n then rows.take n.toNat else rows
  | none => rows

/-- Rows after `ORDER BY`, then `OFFSET`, then `LIMIT`. -/
def Scope.apply {α : Type} (sc : Scope) (createdAt : α → Int) (rows : List α) : List α :=
  applyLimit sc.limit
    (applyOffset sc.offset (if sc.orderCreatedAtDesc then orderDesc createdAt rows else rows))

/-- A statement over table `sessions`: the preload of `Climbs` (with the scope its
function argument builds), the `Where` conditions, and the scope of the main query. -/
structure Statement where
  preload : Option Scope := none
  conds : List Cond := []
  scope : Scope := {}

/-- The call `Preload("Climbs")`. -/
def Statement.Preload (q : Statement) : Statement := { q with preload := some {} }

/-- The call `Preload("Climbs", f)`, where `f` adds clauses to the climbs query. -/
def Statement.PreloadWith (q : Statement) (f : Scope → Scope) : Statement :=
  { q with preload := some (f {}) }

/-- The call `Where(cond)`; successive conditions are joined by `AND`. -/
def Statement.Where (q : Statement) (c : Cond) : Statement := { q with conds := q.conds ++ [c] }

/-- The call `Limit(n)` on the main query. -/
def Statement.Limit (q : Statement) (n : Int) : Statement := { q with scope := q.scope.Limit n }

/-- The call `Offset(n)` on the main query. -/
def Statement.Offset (q : Statement) (n : Int) : Statement := { q with scope := q.scope.Offset n }

/-- The call `Order("created_at DESC")` on the main query. -/
def Statement.Order (q : Statement) : Statement := { q with scope := q.scope.Order }

/-- The rows of `sessions` the main query selects. -/
def Statement.rows (q : Statement) (st : Store) : List SessionRow :=
  q.scope.apply SessionRow.CreatedAt (st.sessions.filter (fun r => q.conds.all (fun c => c.holds r)))

/-- The preload of `Climbs`: one query over `climbs` for the selected sessions
(`session_id IN (ids)`) under the preload scope; each session receives the climbs of the
answer that point to it.  Without a preload the field stays empty. -/
def Statement.loadClimbs (q : Statement) (st : Store) (rows : List SessionRow) : List Session :=
  match q.preload with
  | none => rows.map (fun r => r.load [])
  | some sc =>
    let found := sc.apply Climb.CreatedAt
      (st.climbs.filter (fun c => decide (c.SessionID ∈ rows.map SessionRow.ID)))
    rows.map (fun r => r.load (found.filter (fun c => decide (c.SessionID = r.ID))))

/-- The finisher `Find(&sessions)` together with reading `.Error`. -/
def Statement.Find (q : Statement) (db : DB) : List Session × Option Error :=
  match db with
  | .down e => ([], some e)
  | .up st => (q.loadClimbs st (q.rows st), none)

/-- The finisher `Take(dest)` together with reading `.Error`.  `Take` adds `LIMIT 1`;
when the primary key of `dest` is not zero GORM adds `id = dest.ID` to the conditions
(the documented behaviour of `First`, `Take` and `Last` on a struct whose primary key is
set); the selected row overwrites the columns of `dest` and the preload replaces its
`Climbs`; when no row is selected `dest` is left as it was and the error is
`ErrRecordNotFound`. -/
def Statement.Take (q : Statement) (db : DB) (dest : Session) : Session × Option Error :=
  match db with
  | .down e => (dest, some e)
  | .up st =>
    let q1 := q.Limit 1
    let q2 := if dest.ID = 0 then q1 else q1.Where (.eq .id dest.ID)
    match q2.loadClimbs st (q2.rows st) with
    | [] => (dest, some ErrRecordNotFound)
    | s :: _ => (s, none)

/-! ## `backend/models/session.go` -/

/-- The function `FindAllSessions`: the result pointer (`none` for `nil`) and the error. -/
def FindAllSessions (db : DB) (userID offset limit : Int) : Option (List Session) × Option Error :=
  let q : Statement := {}
  let (sessions, err) :=
    (((((q.Preload).Where (.eq .user_id userID)).Limit limit).Offset offset).Order).Find db
  match err with
  | some e =>
    (none, some (.wrap e ("Error finding sessions for user with id " ++ toString userID)))
  | none => (some sessions, none)

/-- The method `Session.FindByID`: the receiver after the call and the error. -/
def Session.FindByID (s : Session) (db : DB) (userID sessionID offset limit : Int) :
    Session × Option Error :=
  let q : Statement := {}
  let (s1, err) :=
    ((q.PreloadWith (fun c => ((c.Limit limit).Offset offset).Order)).Where
      (.and (.eq .user_id userID) (.eq .id sessionID))).Take db s
  match err with
  | some e =>
    (s1, some (.wrap e ("Error finding sessions with id " ++ toString sessionID ++
      " for user with id " ++ toString userID)))
  | none => (s1, none)

/-- The method `Session.FindByDate`: the receiver after the call and the error. -/
def Session.FindByDate (s : Session) (db : DB) (userID : Int) (sessionDate : Time) :
    Session × Option Error :=
  let q : Statement := {}
  let (s1, err) :=
    ((q.Preload).Where (.and (.eq .user_id userID) (.eq .date sessionDate))).Take db s
  match err with
  | some e =>
    (s1, some (.wrap e ("Error finding session on date " ++ Time.String sessionDate ++
      " for user with id " ++ toString userID)))
  | none => (s1, none)

/-- The rows of `sessions JOIN climbs on climbs.session_id = sessions.id`. -/
def joinClimbs (st : Store) : List (SessionRow × Climb) :=
  st.sessions.flatMap (fun r =>
    (st.climbs.filter (fun c => decide (c.SessionID = r.ID))).map (fun c => (r, c)))

/-- The groups of `GROUP BY sessions.id`: the distinct session ids among the rows. -/
def groupKeys (rows : List (SessionRow × Climb)) : List Int :=
  (rows.map (fun p => p.1.ID)).dedup

/-- The output row of one group under
`SELECT sessions.id, sessions.date, SUM(climbs.load) as load`: the id of the group, the
date of its session, and the aggregate of the loads of its rows scanned into the `float64`
field `Load`.  `SUM` is the aggregate of the storage engine as the scan delivers it, taken
as a parameter: its summation order, precision and rounding belong to the engine.  A key
without rows gives no output row. -/
def selectSummary (SUM : List ℚ → Float64) (rows : List (SessionRow × Climb)) (k : Int) :
    Option SessionSummary :=
  match rows.filter (fun p => decide (p.1.ID = k)) with
  | [] => none
  | p :: g => some { ID := k, Date := p.1.Date, Load := SUM ((p :: g).map (fun x => x.2.Load)) }

/-- The statement of `FindSessionSummaries` with its finisher `Scan(&summaries)` and the
reading of `.Error`: join, where, group, select. -/
def ScanSummaries (SUM : List ℚ → Float64) (db : DB) (cond : Cond) :
    List SessionSummary × Option Error :=
  match db with
  | .down e => ([], some e)
  | .up st =>
    let rows := (joinClimbs st).filter (fun p => cond.holds p.1)
    ((groupKeys rows).filterMap (selectSummary SUM rows), none)

/-- The function `FindSessionSummaries`: the result pointer (`none` for `nil`) and the
error.  The first argument is the aggregate of the storage engine behind `db`. -/
def FindSessionSummaries (SUM : List ℚ → Float64) (db : DB) (userID : Int)
    (startDate endDate : Time) : Option (List SessionSummary) × Option Error :=
  let (summaries, err) :=
    ScanSummaries SUM db (.and (.eq .user_id userID) (.between .date startDate endDate))
  match err with
  | some e =>
    (none, some (.wrap e ("Error finding session summaries for user with id " ++
      toString userID)))
  | none => (some summaries, none)

/-! ## `backend/handlers/userHandler.go` -/

/-- Modelled from the spec: the User entity (`models.User` is not among the sources), an
identity record with an identifier, a username and a password-derived credential.  The
handlers read `Username` and `Password`. -/
structure User where
  ID : Int
  Username : String
  Password : String
deriving DecidableEq

/-- Modelled from the spec: the body of a password update (`models.PasswordUpdateInput` is
not among the sources); `UserProfileHandler` reads these two fields. -/
structure PasswordUpdateInput where
  CurrentPassword : String
  NewPassword : String
deriving DecidableEq

/-- Values the payloads hold: a string, a number, or a whole `User` struct. -/
inductive Value where
  | str (s : String)
  | int (n : Int)
  | user (u : User)
deriving DecidableEq

/-- A response written with `ctx.JSON`: the status code and the `gin.H` payload. -/
structure Response where
  status : Nat
  payload : List (String × Value)
deriving DecidableEq

/-- The field of a payload under a key. -/
def Response.field (r : Response) (key : String) : Option Value :=
  (r.payload.find? (fun kv => kv.1 == key)).map Prod.snd

/-- The `*gin.Context` of one request: the raw body, the bearer token if any, and the
responses written so far. -/
structure Context where
  body : String
  bearer : Option String
  written : List Response

/-- The method `ctx.JSON(code, obj)`. -/
def Context.JSON (ctx : Context) (code : Nat) (obj : List (String × Value)) : Context :=
  { ctx with written := ctx.written ++ [{ status := code, payload := obj }] }

/-- The constant `http.StatusOK`. -/
def StatusOK : Nat := 200

/-- The constant `http.StatusBadRequest`. -/
def StatusBadRequest : Nat := 400

/-- The constant `http.StatusUnauthorized`. -/
def StatusUnauthorized : Nat := 401

/-- The constant `http.StatusInternalServerError`. -/
def StatusInternalServerError : Nat := 500

/-- Modelled from the spec: `apiErrors.HandleAPIError` (not among the sources).  On an
error it responds with the fixed message under key "error" and the status the caller
selected, and reports true so that the handler returns; on a nil error it writes nothing
and reports false. -/
def HandleAPIError (ctx : Context) (message : String) (err : Option Error) (status : Nat) :
    Context × Bool :=
  match err with
  | some _ => (ctx.JSON status [("error", .str message)], true)
  | none => (ctx, false)

/-- The state the services act on: table `users`, and the names of the services functions
called so far, oldest first. -/
structure World where
  users : List User
  calls : List String

/-- The collaborators outside the sources, taken as parameters: JSON binding of gin, the
services `PrepareUser`, `CreateUser` and `VerifyUser` (each may read and write table
`users`), the token parser of package auth, and the password hashing the user service
relies on. -/
structure Env where
  ShouldBindUser : Context → User × Option Error
  ShouldBindPasswordUpdate : Context → PasswordUpdateInput × Option Error
  PrepareUser : List User → User → List User × User × Option Error
  CreateUser : List User → User → List User × User × Option Error
  VerifyUser : List User → String → String → List User × String × Option Error
  ExtractUserIdFromJWT : Context → Int × Option Error
  checkPassword : String → String → Bool
  hashPassword : String → String

/-- Modelled from the spec: `services.UpdateUserPassword` (not among the sources).  The
user is looked up by id and the supplied current password is checked against the stored
hash; with an incorrect current password, or no such user, it returns an error and the
stored hashes are unchanged; otherwise the hash of the new password is stored for that
user. -/
def UpdateUserPassword (env : Env) (users : List User) (userID : Int)
    (currentPassword newPassword : String) : List User × Option Error :=
  match users.find? (fun u => decide (u.ID = userID)) with
  | none => (users, some (.base "user not found"))
  | some u =>
    if env.checkPassword u.Password currentPassword then
      (users.map (fun v =>
        if v.ID = userID then { v with Password := env.hashPassword newPassword } else v), none)
    else (users, some (.base "incorrect password"))

/-- The call `services.PrepareUser(&user)`. -/
def World.callPrepareUser (env : Env) (w : World) (user : User) : World × User × Option Error :=
  let (users, user, err) := env.PrepareUser w.users user
  ({ users := users, calls := w.calls ++ ["PrepareUser"] }, user, err)

/-- The call `services.CreateUser(&user)`. -/
def World.callCreateUser (env : Env) (w : World) (user : User) : World × User × Option Error :=
  let (users, user, err) := env.CreateUser w.users user
  ({ users := users, calls := w.calls ++ ["CreateUser"] }, user, err)

/-- The call `services.VerifyUser(username, password)`. -/
def World.callVerifyUser (env : Env) (w : World) (username password : String) :
    World × String × Option Error :=
  let (users, jwt, err) := env.VerifyUser w.users username password
  ({ users := users, calls := w.calls ++ ["VerifyUser"] }, jwt, err)

/-- The call `services.UpdateUserPassword(userID, currentPassword, newPassword)`. -/
def World.callUpdateUserPassword (env : Env) (w : World) (userID : Int)
    (currentPassword newPassword : String) : World × Option Error :=
  let (users, err) := UpdateUserPassword env w.users userID currentPassword newPassword
  ({ users := users, calls := w.calls ++ ["UpdateUserPassword"] }, err)

/-- The handler `UserRegisterHandler`. -/
def UserRegisterHandler (env : Env) (ctx : Context) (w : World) : Context × World :=
  let (user, err) := env.ShouldBindUser ctx
  match HandleAPIError ctx "Invalid input. Please check the submitted data and try again."
      err StatusBadRequest with
  | (ctx, true) => (ctx, w)
  | (ctx, false) =>
    let (w, user, err) := w.callPrepareUser env user
    match HandleAPIError ctx
        "An error occurred while processing your request. Please try again later."
        err StatusInternalServerError with
    | (ctx, true) => (ctx, w)
    | (ctx, false) =>
      let (w, user, err) := w.callCreateUser env user
      match HandleAPIError ctx
          "We encountered an issue while registering your account. Please try again later."
          err StatusInternalServerError with
      | (ctx, true) => (ctx, w)
      | (ctx, false) =>
        (ctx.JSON StatusOK
          [("message", .str "User registered successfully"), ("user_id", .user user)], w)

/-- The handler `UserLoginHandler`. -/
def UserLoginHandler (env : Env) (ctx : Context) (w : World) : Context × World :=
  let (loginInput, err) := env.ShouldBindUser ctx
  match HandleAPIError ctx "Invalid input. Please check the submitted data and try again."
      err StatusBadRequest with
  | (ctx, true) => (ctx, w)
  | (ctx, false) =>
    let (w, jwt, err) := w.callVerifyUser env loginInput.Username loginInput.Password
    match HandleAPIError ctx
        "Invalid username or password. Please check your credentials and try again."
        err StatusUnauthorized with
    | (ctx, true) => (ctx, w)
    | (ctx, false) => (ctx.JSON StatusOK [("token", .str jwt)], w)

/-- The handler `UserProfileHandler`. -/
def UserProfileHandler (env : Env) (ctx : Context) (w : World) : Context × World :=
  let (updateInput, err) := env.ShouldBindPasswordUpdate ctx
  match HandleAPIError ctx "Invalid input. Please check the submitted data and try again."
      err StatusBadRequest with
  | (ctx, true) => (ctx, w)
  | (ctx, false) =>
    let (userID, err) := env.ExtractUserIdFromJWT ctx
    match HandleAPIError ctx
        "Authorization token is invalid or missing. Please log in and try again."
        err StatusUnauthorized with
    | (ctx, true) => (ctx, w)
    | (ctx, false) =>
      let (w, err) :=
        w.callUpdateUserPassword env userID updateInput.CurrentPassword updateInput.NewPassword
      match HandleAPIError ctx "Invalid password. Please check your credentials and try again."
          err StatusUnauthorized with
      | (ctx, true) => (ctx, w)
      | (ctx, false) => (ctx.JSON StatusOK [("message", .str "Password updated successfully")], w)

/-! ## Specification-side definitions -/

/-- The page the specification describes for `FindAllSessions`: the sessions of the user,
sorted by creation time descending, without the first `offset`, cut to `limit`. -/
def sessionsPage (st : Store) (userID offset limit : Int) : List SessionRow :=
  (((st.sessions.filter (fun r => decide (r.UserID = userID))).insertionSort
    (fun a b => b.CreatedAt ≤ a.CreatedAt)).drop offset.toNat).take limit.toNat

/-- The page the specification describes for the climbs of one session. -/
def climbsPage (st : Store) (sessionID offset limit : Int) : List Climb :=
  (((st.climbs.filter (fun c => decide (c.SessionID = sessionID))).insertionSort
    (fun a b => b.CreatedAt ≤ a.CreatedAt)).drop offset.toNat).take limit.toNat

/-! ## Example data -/

/-- A freshly declared `Session` variable: the zero value. -/
def Session.zero : Session :=
  { ID := 0, Date := 0, CreatedAt := 0, UpdatedAt := 0, UserID := 0, Climbs := [], Notes := "" }

/-- A session value that still carries id 1, as a reused variable does. -/
def staleSession : Session := { Session.zero with ID := 1 }

/-- Session 2 of user 7, on date 5. -/
def rowTwo : SessionRow :=
  { ID := 2, Date := 5, CreatedAt := 9, UpdatedAt := 9, UserID := 7, Notes := "" }

/-- A store holding only session 2 of user 7. -/
def storeTwo : Store := { sessions := [rowTwo], climbs := [] }

/-- Session 1 of user 7, on date 3. -/
def rowOne : SessionRow :=
  { ID := 1, Date := 3, CreatedAt := 8, UpdatedAt := 8, UserID := 7, Notes := "" }

/-- Three climbs of session 1, created at 11, 12 and 13. -/
def climbA : Climb := { ID := 1, SessionID := 1, CreatedAt := 11, Load := 10 }

/-- The second climb of session 1. -/
def climbB : Climb := { ID := 2, SessionID := 1, CreatedAt := 12, Load := 20 }

/-- The third climb of session 1. -/
def climbC : Climb := { ID := 3, SessionID := 1, CreatedAt := 13, Load := 5 }

/-- A store with session 1 (three climbs) and session 2 (no climbs) of user 7. -/
def storeThree : Store := { sessions := [rowOne, rowTwo], climbs := [climbA, climbB, climbC] }

/-- The summary of one session: its id, its date, and the aggregate of the engine over the
loads of all climbs that point to it. -/
def summaryOf (SUM : List ℚ → Float64) (st : Store) (r : SessionRow) : SessionSummary :=
  { ID := r.ID, Date := r.Date,
    Load := SUM ((st.climbs.filter (fun c => decide (c.SessionID = r.ID))).map Climb.Load) }

/-- The summaries the specification describes: one for each session of the user whose date
lies in the range, both bounds included, and that has at least one climb. -/
def sessionSummaries (SUM : List ℚ → Float64) (st : Store) (userID : Int)
    (startDate endDate : Time) : List SessionSummary :=
  (st.sessions.filter (fun r =>
    decide (r.UserID = userID) && (decide (startDate ≤ r.Date) && decide (r.Date ≤ endDate)) &&
      st.climbs.any (fun c => decide (c.SessionID = r.ID)))).map (summaryOf SUM st)

/-- The exact sum of the loads of all climbs that point to a session, which the
specification equates with the `Load` of its summary. -/
def exactLoad (st : Store) (sessionID : Int) : ℚ :=
  ((st.climbs.filter (fun c => decide (c.SessionID = sessionID))).map Climb.Load).sum

/-- The number of binary digits of `n`, halving at most `fuel` times. -/
def bitLength : Nat → Nat → Nat
  | 0, _ => 0
  | fuel + 1, n => if n = 0 then 0 else bitLength fuel (n / 2) + 1

/-- The `float64` nearest to a rational, ties to the even fraction, as a conversion to
`float64` rounds: subnormal below `2^-1022`, infinite from `2^1024 - 2^970` on. -/
def Float64.ofRat (q : ℚ) : Float64 :=
  let n := q.num.natAbs
  let d := q.den
  let neg := decide (q.num < 0)
  if n = 0 then { sign := false, exponent := 0, fraction := 0 }
  else
    let e0 : Int := (bitLength n n : Int) - (bitLength d d : Int)
    let ge : Bool :=
      if 0 ≤ e0 then decide (d * 2 ^ e0.toNat ≤ n) else decide (d ≤ n * 2 ^ (-e0).toNat)
    let e : Int := if ge then e0 else e0 - 1
    let E : Int := max e (-1022)
    let s : Int := 52 - E
    let num : Nat := if 0 ≤ s then n * 2 ^ s.toNat else n
    let den : Nat := if 0 ≤ s then d else d * 2 ^ (-s).toNat
    let k := num / den
    let r := num % den
    let k1 := if den < 2 * r ∨ (2 * r = den ∧ k % 2 = 1) then k + 1 else k
    let E1 : Int := if k1 = 9007199254740992 then E + 1 else E
    let k2 : Nat := if k1 = 9007199254740992 then 4503599627370496 else k1
    if k2 < 4503599627370496 then
      { sign := neg, exponent := 0, fraction := ⟨k2 % 4503599627370496, Nat.mod_lt _ (by decide)⟩ }
    else if 1023 < E1 then { sign := neg, exponent := 2047, fraction := 0 }
    else
      { sign := neg, exponent := ⟨(E1 + 1023).toNat % 2048, Nat.mod_lt _ (by decide)⟩,
        fraction := ⟨(k2 - 4503599627370496) % 4503599627370496, Nat.mod_lt _ (by decide)⟩ }

/-- An example engine: it adds the loads exactly, as over a `decimal` column, and the scan
rounds the total to the nearest `float64`. -/
def decimalSUM (loads : List ℚ) : Float64 := Float64.ofRat loads.sum

/-- The `float64` 30: exponent 1027, fraction `0.875 * 2^52`. -/
def thirty : Float64 := { sign := false, exponent := 1027, fraction := 3940649673949184 }

/-- A climb of load `2^53` in session 1. -/
def climbHuge : Climb := { ID := 1, SessionID := 1, CreatedAt := 11, Load := 9007199254740992 }

/-- A climb of load 1 in session 1. -/
def climbUnit : Climb := { ID := 2, SessionID := 1, CreatedAt := 12, Load := 1 }

/-- A store with session 1 of user 7 and its two climbs, of loads `2^53` and 1. -/
def storeHuge : Store := { sessions := [rowOne], climbs := [climbHuge, climbUnit] }

/-- The session of user 7 on 2024-01-01 (as seconds since the epoch). -/
def rowJanFirst : SessionRow :=
  { ID := 1, Date := 1704067200, CreatedAt := 1704070000, UpdatedAt := 1704070000, UserID := 7,
    Notes := "" }

/-- The session of user 7 on 2024-01-05, which has no climbs. -/
def rowJanFifth : SessionRow :=
  { ID := 2, Date := 1704412800, CreatedAt := 1704420000, UpdatedAt := 1704420000, UserID := 7,
    Notes := "" }

/-- A climb of load 10 in the session of 2024-01-01. -/
def climbTen : Climb := { ID := 1, SessionID := 1, CreatedAt := 1704070100, Load := 10 }

/-- A climb of load 20 in the session of 2024-01-01. -/
def climbTwenty : Climb := { ID := 2, SessionID := 1, CreatedAt := 1704070200, Load := 20 }

/-- The scenario of the specification: two sessions of one user, the first with climbs of
load 10 and 20, the second without climbs. -/
def storeJanuary : Store :=
  { sessions := [rowJanFirst, rowJanFifth], climbs := [climbTen, climbTwenty] }

/-- Example collaborators: binding fails with `EOF` on an empty body and otherwise reads the
body as the password of user alice (or as the current password); hashing prefixes "hash:"; `CreateUser`
appends the user under the next id; `VerifyUser` compares the stored hash; every bearer
token names user 1. -/
def exampleEnv : Env where
  ShouldBindUser := fun ctx =>
    if ctx.body = "" then ({ ID := 0, Username := "", Password := "" }, some (.base "EOF"))
    else ({ ID := 0, Username := "alice", Password := ctx.body }, none)
  ShouldBindPasswordUpdate := fun ctx =>
    if ctx.body = "" then ({ CurrentPassword := "", NewPassword := "" }, some (.base "EOF"))
    else ({ CurrentPassword := ctx.body, NewPassword := "fresh" }, none)
  PrepareUser := fun users u => (users, { u with Password := "hash:" ++ u.Password }, none)
  CreateUser := fun users u =>
    (users ++ [{ u with ID := users.length + 1 }], { u with ID := users.length + 1 }, none)
  VerifyUser := fun users name pw =>
    match users.find? (fun u => u.Username == name) with
    | some u =>
      if u.Password = "hash:" ++ pw then (users, "token-of-" ++ name, none)
      else (users, "", some (.base "wrong password"))
    | none => (users, "", some (.base "no such user"))
  ExtractUserIdFromJWT := fun ctx =>
    match ctx.bearer with
    | some _ => (1, none)
    | none => (0, some (.base "no token"))
  checkPassword := fun h p => h == "hash:" ++ p
  hashPassword := fun p => "hash:" ++ p

/-- The stored user alice, with id 1 and the hash of "secret". -/
def alice : User := { ID := 1, Username := "alice", Password := "hash:secret" }

/-- A state with alice registered and no services call made yet. -/
def worldAlice : World := { users := [alice], calls := [] }

/-- A state with no user and no services call made yet. -/
def worldEmpty : World := { users := [], calls := [] }

/-- A request with the given body and bearer token, nothing written yet. -/
def request (body : String) (bearer : Option String) : Context :=
  { body := body, bearer := bearer, written := [] }

/-! ## Lemmas on the clauses -/

theorem orderDesc_sorted {α : Type} (key : α → Int) (rows : List α) :
    (orderDesc key rows).Pairwise (fun a b => key b ≤ key a) := by
  haveI : IsTotal α (fun a b => key b ≤ key a) := ⟨fun a b => le_total (key b) (key a)⟩
  haveI : IsTrans α (fun a b => key b ≤ key a) := ⟨fun _ _ _ h1 h2 => le_trans h2 h1⟩
  exact List.sorted_insertionSort (fun a b => key b ≤ key a) rows

theorem mem_orderDesc {α : Type} (key : α → Int) (rows : List α) (x : α) :
    x ∈ orderDesc key rows ↔ x ∈ rows :=
  (List.perm_insertionSort (fun a b => key b ≤ key a) rows).mem_iff

theorem applyOffset_of_nonneg {α : Type} (n : Int) (hn : 0 ≤ n) (rows : List α) :
    applyOffset (some n) rows = rows.drop n.toNat := by
  show (if 0 < n then rows.drop n.toNat else rows) = rows.drop n.toNat
  split_ifs with h
  · rfl
  · have h0 : n = 0 := le_antisymm (not_lt.mp h) hn
    subst h0
    simp

theorem applyLimit_of_nonneg {α : Type} (n : Int) (hn : 0 ≤ n) (rows : List α) :
    applyLimit (some n) rows = rows.take n.toNat := by
  show (if 0 ≤ n then rows.take n.toNat else rows) = rows.take n.toNat
  rw [if_pos hn]

theorem map_row_load (rows : List SessionRow) (f : SessionRow → List Climb) :
    (rows.map (fun r => r.load (f r))).map Session.row = rows := by
  induction rows with
  | nil => rfl
  | cons r rs ih =>
    simp only [List.map_cons, ih]
    rfl

theorem loadClimbs_row (q : Statement) (st : Store) (rows : List SessionRow) :
    (q.loadClimbs st rows).map Session.row = rows := by
  unfold Statement.loadClimbs
  cases q.preload with
  | none => exact map_row_load rows (fun _ => [])
  | some sc => exact map_row_load rows _

theorem FindAllSessions_up (st : Store) (userID offset limit : Int) :
    FindAllSessions (.up st) userID offset limit =
      (some ((((((({} : Statement).Preload).Where (.eq .user_id userID)).Limit limit).Offset
        offset).Order).loadClimbs st
          ((((((({} : Statement).Preload).Where (.eq .user_id userID)).Limit limit).Offset
            offset).Order).rows st)), none) := rfl

theorem FindAllSessions_rows (st : Store) (userID offset limit : Int)
    (ho : 0 ≤ offset) (hl : 0 ≤ limit) :
    (((((({} : Statement).Preload).Where (.eq .user_id userID)).Limit limit).Offset
      offset).Order).rows st = sessionsPage st userID offset limit := by
  simp only [Statement.rows, Statement.Order, Statement.Offset, Statement.Limit, Statement.Where,
    Statement.Preload, Scope.Order, Scope.Offset, Scope.Limit, Scope.apply, sessionsPage,
    applyOffset_of_nonneg offset ho, applyLimit_of_nonneg limit hl, orderDesc, if_true,
    List.nil_append, List.all_cons, List.all_nil, Bool.and_true, Cond.holds, SessionRow.col]

theorem sessionsPage_length (st : Store) (userID offset limit : Int) (hl : 0 ≤ limit) :
    ((sessionsPage st userID offset limit).length : Int) ≤ limit := by
  have h : (sessionsPage st userID offset limit).length ≤ limit.toNat := by
    unfold sessionsPage
    exact List.length_take_le _ _
  have h2 : ((limit.toNat : Nat) : Int) = limit := Int.toNat_of_nonneg hl
  omega

theorem sessionsPage_sublist (st : Store) (userID offset limit : Int) :
    (sessionsPage st userID offset limit).Sublist
      (orderDesc SessionRow.CreatedAt
        (st.sessions.filter (fun r => decide (r.UserID = userID)))) :=
  (List.take_sublist _ _).trans (List.drop_sublist _ _)

theorem sessionsPage_user (st : Store) (userID offset limit : Int) (r : SessionRow)
    (hr : r ∈ sessionsPage st userID offset limit) : r.UserID = userID := by
  have h1 := (sessionsPage_sublist st userID offset limit).subset hr
  rw [mem_orderDesc] at h1
  simpa using (List.mem_filter.mp h1).2

theorem sessionsPage_sorted (st : Store) (userID offset limit : Int) :
    (sessionsPage st userID offset limit).Pairwise (fun a b => b.CreatedAt ≤ a.CreatedAt) :=
  (orderDesc_sorted SessionRow.CreatedAt _).sublist (sessionsPage_sublist st userID offset limit)

/-- C2: on a serving store and for a page window with `offset >= 0` and `limit >= 0`,
`FindAllSessions` succeeds with a list of at most `limit` sessions, all of the requested
user, ordered by creation time descending, whose rows are exactly the user's sessions sorted
by creation time descending without the first `offset` and cut to `limit`. -/
theorem FindAllSessions_page (st : Store) (userID offset limit : Int)
    (ho : 0 ≤ offset) (hl : 0 ≤ limit) :
    ∃ sessions, FindAllSessions (.up st) userID offset limit = (some sessions, none) ∧
      (sessions.length : Int) ≤ limit ∧
      (∀ s ∈ sessions, s.UserID = userID) ∧
      sessions.Pairwise (fun a b => b.CreatedAt ≤ a.CreatedAt) ∧
      sessions.map Session.row = sessionsPage st userID offset limit := by
  refine ⟨_, FindAllSessions_up st userID offset limit, ?_⟩
  have hrow := loadClimbs_row
    ((((((({} : Statement).Preload).Where (.eq .user_id userID)).Limit limit).Offset
      offset).Order)) st
    ((((((({} : Statement).Preload).Where (.eq .user_id userID)).Limit limit).Offset
      offset).Order).rows st)
  rw [FindAllSessions_rows st userID offset limit ho hl] at hrow ⊢
  generalize Statement.loadClimbs _ st (sessionsPage st userID offset limit) = sessions at hrow
  refine ⟨?_, ?_, ?_, hrow⟩
  · have := sessionsPage_length st userID offset limit hl
    rw [← hrow, List.length_map] at this
    exact this
  · intro s hs
    have hm : s.row ∈ sessionsPage st userID offset limit := by
      rw [← hrow]
      exact List.mem_map_of_mem Session.row hs
    exact sessionsPage_user st userID offset limit s.row hm
  · have := sessionsPage_sorted st userID offset limit
    rw [← hrow, List.pairwise_map] at this
    exact this

/-- C6: when the storage query fails, `FindAllSessions` returns a nil result and an error
that wraps the storage error and whose text is "Error finding sessions for user with id"
followed by the decimal user id and the text of the cause; when the query is served, the
result is non-nil and the error is nil.  For user 42 and the storage error "connection
refused" the text reads "Error finding sessions for user with id 42: connection refused". -/
theorem FindAllSessions_error (userID offset limit : Int) :
    (∀ e : Error, ∃ err,
      FindAllSessions (.down e) userID offset limit = (none, some err) ∧
      err.Unwrap = some e ∧
      err.message =
        "Error finding sessions for user with id " ++ toString userID ++ ": " ++ e.message) ∧
    (∀ st : Store, ∃ sessions,
      FindAllSessions (.up st) userID offset limit = (some sessions, none)) ∧
    (FindAllSessions (.down (.base "connection refused")) 42 0 10).2.map Error.message =
      some "Error finding sessions for user with id 42: connection refused" := by
  refine ⟨?_, ?_, by decide⟩
  · intro e
    exact ⟨_, rfl, rfl, rfl⟩
  · intro st
    exact ⟨_, FindAllSessions_up st userID offset limit⟩

theorem applyOffset_subset {α : Type} (o : Option Int) (rows : List α) (x : α)
    (hx : x ∈ applyOffset o rows) : x ∈ rows := by
  cases o with
  | none => exact hx
  | some n =>
    change x ∈ (if 0 < n then rows.drop n.toNat else rows) at hx
    split_ifs at hx
    · exact List.mem_of_mem_drop hx
    · exact hx

theorem applyLimit_subset {α : Type} (o : Option Int) (rows : List α) (x : α)
    (hx : x ∈ applyLimit o rows) : x ∈ rows := by
  cases o with
  | none => exact hx
  | some n =>
    change x ∈ (if 0 ≤ n then rows.take n.toNat else rows) at hx
    split_ifs at hx
    · exact List.mem_of_mem_take hx
    · exact hx

theorem Scope.apply_subset {α : Type} (sc : Scope) (key : α → Int) (rows : List α) (x : α)
    (hx : x ∈ sc.apply key rows) : x ∈ rows := by
  unfold Scope.apply at hx
  have h1 := applyOffset_subset _ _ _ (applyLimit_subset _ _ _ hx)
  split_ifs at h1
  · exact (mem_orderDesc key rows x).mp h1
  · exact h1

theorem loadClimbs_single (q : Statement) (sc : Scope) (st : Store) (r : SessionRow)
    (hq : q.preload = some sc) :
    q.loadClimbs st [r] =
      [r.load (sc.apply Climb.CreatedAt
        (st.climbs.filter (fun c => decide (c.SessionID = r.ID))))] := by
  unfold Statement.loadClimbs
  rw [hq]
  simp only [List.map_cons, List.map_nil, List.mem_singleton]
  congr 2
  rw [List.filter_eq_self]
  intro c hc
  have := Scope.apply_subset sc Climb.CreatedAt _ c hc
  exact (List.mem_filter.mp this).2

theorem loadClimbs_nil (q : Statement) (st : Store) : q.loadClimbs st [] = [] := by
  unfold Statement.loadClimbs
  cases q.preload <;> rfl

theorem take_first (q2 : Statement) (sc : Scope) (st : Store) (dest : Session)
    (p : SessionRow → Bool) (hq : q2.preload = some sc) (hs : q2.scope = ({} : Scope).Limit 1)
    (hp : (fun r => q2.conds.all (fun c => c.holds r)) = p) :
    (match q2.loadClimbs st (q2.rows st) with
      | [] => (dest, some ErrRecordNotFound)
      | s :: _ => (s, none)) =
      match st.sessions.filter p with
      | [] => (dest, some ErrRecordNotFound)
      | r :: _ =>
        (r.load (sc.apply Climb.CreatedAt
          (st.climbs.filter (fun c => decide (c.SessionID = r.ID)))), none) := by
  have hrows : q2.rows st = (st.sessions.filter p).take 1 := by
    unfold Statement.rows
    rw [hs, hp]
    rfl
  rw [hrows]
  cases st.sessions.filter p with
  | nil => rw [List.take_nil, loadClimbs_nil]
  | cons r rest =>
    rw [List.take_succ_cons, List.take_zero, loadClimbs_single q2 sc st r hq]

theorem Take_up (q : Statement) (sc : Scope) (st : Store) (dest : Session)
    (hq : q.preload = some sc) (hs : q.scope = {}) :
    q.Take (.up st) dest =
      match st.sessions.filter (fun r =>
        q.conds.all (fun c => c.holds r) && (decide (dest.ID = 0) || decide (r.ID = dest.ID))) with
      | [] => (dest, some ErrRecordNotFound)
      | r :: _ =>
        (r.load (sc.apply Climb.CreatedAt
          (st.climbs.filter (fun c => decide (c.SessionID = r.ID)))), none) := by
  unfold Statement.Take
  by_cases h0 : dest.ID = 0
  · simp only [h0, if_true, decide_True, Bool.true_or, Bool.and_true]
    exact take_first (q.Limit 1) sc st dest _ hq (by rw [Statement.Limit, hs]) rfl
  · simp only [h0, if_false, decide_False, Bool.false_or]
    refine take_first ((q.Limit 1).Where (.eq .id dest.ID)) sc st dest _ hq
      (by rw [Statement.Where, Statement.Limit, hs]) ?_
    funext r
    simp [Statement.Where, Statement.Limit, Cond.holds, SessionRow.col]
theorem FindByID_up (s : Session) (st : Store) (userID sessionID offset limit : Int) :
    s.FindByID (.up st) userID sessionID offset limit =
      match st.sessions.filter (fun r =>
        (decide (r.UserID = userID) && decide (r.ID = sessionID)) &&
          (decide (s.ID = 0) || decide (r.ID = s.ID))) with
      | [] => (s, some (.wrap ErrRecordNotFound ("Error finding sessions with id " ++
          toString sessionID ++ " for user with id " ++ toString userID)))
      | r :: _ =>
        (r.load ((((({} : Scope).Limit limit).Offset offset).Order).apply Climb.CreatedAt
          (st.climbs.filter (fun c => decide (c.SessionID = r.ID)))), none) := by
  unfold Session.FindByID
  simp only []
  rw [Take_up _ (((({} : Scope).Limit limit).Offset offset).Order) st s rfl rfl]
  simp only [Statement.Where, Statement.PreloadWith, List.nil_append, List.all_cons,
    List.all_nil, Bool.and_true, Cond.holds, SessionRow.col]
  cases st.sessions.filter (fun r =>
        (decide (r.UserID = userID) && decide (r.ID = sessionID)) &&
          (decide (s.ID = 0) || decide (r.ID = s.ID))) <;> rfl

theorem FindByDate_up (s : Session) (st : Store) (userID : Int) (sessionDate : Time) :
    s.FindByDate (.up st) userID sessionDate =
      match st.sessions.filter (fun r =>
        (decide (r.UserID = userID) && decide (r.Date = sessionDate)) &&
          (decide (s.ID = 0) || decide (r.ID = s.ID))) with
      | [] => (s, some (.wrap ErrRecordNotFound ("Error finding session on date " ++
          Time.String sessionDate ++ " for user with id " ++ toString userID)))
      | r :: _ =>
        (r.load (st.climbs.filter (fun c => decide (c.SessionID = r.ID))), none) := by
  unfold Session.FindByDate
  simp only []
  rw [Take_up _ ({} : Scope) st s rfl rfl]
  simp only [Statement.Where, Statement.Preload, List.nil_append, List.all_cons,
    List.all_nil, Bool.and_true, Cond.holds, SessionRow.col]
  cases st.sessions.filter (fun r =>
        (decide (r.UserID = userID) && decide (r.Date = sessionDate)) &&
          (decide (s.ID = 0) || decide (r.ID = s.ID))) <;> rfl
theorem mem_filter_byID (s : Session) (st : Store) (userID sessionID : Int) (r : SessionRow) :
    r ∈ st.sessions.filter (fun r =>
        (decide (r.UserID = userID) && decide (r.ID = sessionID)) &&
          (decide (s.ID = 0) || decide (r.ID = s.ID))) ↔
      r ∈ st.sessions ∧ r.UserID = userID ∧ r.ID = sessionID ∧ (s.ID = 0 ∨ r.ID = s.ID) := by
  simp [List.mem_filter, and_assoc]

/-- C3 (amended): `FindByID` returns no error exactly when the store holds a session with
the requested id and user and, in addition, the id the receiver had before the call is zero
or the requested id; on success the receiver holds a session of the store with that id and
that user; and when every session with the requested id belongs to another user the call
returns an error. -/
theorem FindByID_found_iff (s : Session) (st : Store) (userID sessionID offset limit : Int) :
    ((s.FindByID (.up st) userID sessionID offset limit).2 = none ↔
      (∃ r ∈ st.sessions, r.ID = sessionID ∧ r.UserID = userID) ∧
        (s.ID = 0 ∨ s.ID = sessionID)) ∧
    ((s.FindByID (.up st) userID sessionID offset limit).2 = none →
      (s.FindByID (.up st) userID sessionID offset limit).1.ID = sessionID ∧
      (s.FindByID (.up st) userID sessionID offset limit).1.UserID = userID ∧
      (s.FindByID (.up st) userID sessionID offset limit).1.row ∈ st.sessions) ∧
    ((∀ r ∈ st.sessions, r.ID = sessionID → r.UserID ≠ userID) →
      (s.FindByID (.up st) userID sessionID offset limit).2 ≠ none) := by
  rw [FindByID_up]
  have hmem := mem_filter_byID s st userID sessionID
  cases hL : st.sessions.filter (fun r =>
        (decide (r.UserID = userID) && decide (r.ID = sessionID)) &&
          (decide (s.ID = 0) || decide (r.ID = s.ID))) with
  | nil =>
    rw [hL] at hmem
    refine ⟨⟨fun h => by simp at h, ?_⟩, fun h => by simp at h, fun _ => by simp⟩
    rintro ⟨⟨r, hr, hid, hu⟩, hs⟩
    have : r ∈ ([] : List SessionRow) := by
      rw [hmem]
      refine ⟨hr, hu, hid, ?_⟩
      rcases hs with h | h
      · exact Or.inl h
      · exact Or.inr (by rw [hid, h])
    simp at this
  | cons r rest =>
    rw [hL] at hmem
    obtain ⟨hr, hu, hid, hs⟩ := (hmem r).mp (List.mem_cons_self r rest)
    refine ⟨⟨fun _ => ⟨⟨r, hr, hid, hu⟩, ?_⟩, fun _ => rfl⟩, fun _ => ⟨hid, hu, hr⟩, ?_⟩
    · rcases hs with h | h
      · exact Or.inl h
      · exact Or.inr (by rw [← h, hid])
    · intro h
      exact absurd hu (h r hr hid)

/-- C3 (counterexample): the store holds session 2 of user 7, yet `FindByID` for user 7 and
session 2 on a receiver that still carries id 1 returns an error. -/
theorem FindByID_receiver_id_counterexample :
    (∃ r ∈ storeTwo.sessions, r.ID = 2 ∧ r.UserID = 7) ∧
    (staleSession.FindByID (.up storeTwo) 7 2 0 10).2 ≠ none := by
  decide
theorem scope_page {α : Type} (key : α → Int) (rows : List α) (offset limit : Int)
    (ho : 0 ≤ offset) (hl : 0 ≤ limit) :
    (((({} : Scope).Limit limit).Offset offset).Order).apply key rows =
      ((rows.insertionSort (fun a b => key b ≤ key a)).drop offset.toNat).take limit.toNat := by
  simp only [Scope.apply, Scope.Order, Scope.Offset, Scope.Limit, if_true,
    applyOffset_of_nonneg offset ho, applyLimit_of_nonneg limit hl, orderDesc]

theorem climbsPage_sublist (st : Store) (sessionID offset limit : Int) :
    (climbsPage st sessionID offset limit).Sublist
      (orderDesc Climb.CreatedAt
        (st.climbs.filter (fun c => decide (c.SessionID = sessionID)))) :=
  (List.take_sublist _ _).trans (List.drop_sublist _ _)

theorem climbsPage_length (st : Store) (sessionID offset limit : Int) :
    (climbsPage st sessionID offset limit).length =
      min limit.toNat
        ((st.climbs.filter (fun c => decide (c.SessionID = sessionID))).length - offset.toNat) := by
  unfold climbsPage
  rw [List.length_take, List.length_drop, List.length_insertionSort]

/-- C4: for a page window with `offset >= 0` and `limit >= 0`, after a successful `FindByID`
the receiver's `Climbs` is the page of the climbs of the requested session (sorted by creation
time descending, without the first `offset`, cut to `limit`): at most `limit` climbs, exactly
the smaller of `limit` and the number of climbs left after `offset`, all pointing to the
requested session, newest first; and every other page window selects the same session row. -/
theorem FindByID_climbs_page (s s1 : Session) (st : Store)
    (userID sessionID offset limit : Int) (ho : 0 ≤ offset) (hl : 0 ≤ limit)
    (hok : s.FindByID (.up st) userID sessionID offset limit = (s1, none)) :
    s1.Climbs = climbsPage st sessionID offset limit ∧
    (s1.Climbs.length : Int) ≤ limit ∧
    s1.Climbs.length = min limit.toNat
      ((st.climbs.filter (fun c => decide (c.SessionID = sessionID))).length - offset.toNat) ∧
    (∀ c ∈ s1.Climbs, c.SessionID = sessionID) ∧
    s1.Climbs.Pairwise (fun a b => b.CreatedAt ≤ a.CreatedAt) ∧
    (∀ offset2 limit2 : Int, ∃ s2,
      s.FindByID (.up st) userID sessionID offset2 limit2 = (s2, none) ∧ s2.row = s1.row) := by
  have hpage : s1.Climbs = climbsPage st sessionID offset limit ∧
      (∀ offset2 limit2 : Int, ∃ s2,
        s.FindByID (.up st) userID sessionID offset2 limit2 = (s2, none) ∧ s2.row = s1.row) := by
    have hmem := mem_filter_byID s st userID sessionID
    constructor
    · rw [FindByID_up] at hok
      cases hL : st.sessions.filter (fun r =>
          (decide (r.UserID = userID) && decide (r.ID = sessionID)) &&
            (decide (s.ID = 0) || decide (r.ID = s.ID))) with
      | nil => rw [hL] at hok; simp at hok
      | cons r rest =>
        rw [hL] at hok hmem
        obtain ⟨_, _, hid, _⟩ := (hmem r).mp (List.mem_cons_self r rest)
        have h1 : s1 = r.load ((((({} : Scope).Limit limit).Offset offset).Order).apply
            Climb.CreatedAt (st.climbs.filter (fun c => decide (c.SessionID = r.ID)))) :=
          (congrArg Prod.fst hok).symm
        rw [h1, scope_page Climb.CreatedAt _ offset limit ho hl, hid]
        rfl
    · intro offset2 limit2
      rw [FindByID_up] at hok ⊢
      cases hL : st.sessions.filter (fun r =>
          (decide (r.UserID = userID) && decide (r.ID = sessionID)) &&
            (decide (s.ID = 0) || decide (r.ID = s.ID))) with
      | nil => rw [hL] at hok; simp at hok
      | cons r rest =>
        rw [hL] at hok
        refine ⟨_, rfl, ?_⟩
        have h1 : r.load ((((({} : Scope).Limit limit).Offset offset).Order).apply
            Climb.CreatedAt (st.climbs.filter (fun c => decide (c.SessionID = r.ID)))) = s1 :=
          congrArg Prod.fst hok
        rw [← h1]
        rfl
  obtain ⟨hc, hsel⟩ := hpage
  have hlen := climbsPage_length st sessionID offset limit
  refine ⟨hc, ?_, ?_, ?_, ?_, hsel⟩
  · rw [hc, hlen]
    have h2 : ((limit.toNat : Nat) : Int) = limit := Int.toNat_of_nonneg hl
    omega
  · rw [hc, hlen]
  · intro c hcm
    rw [hc] at hcm
    have h1 := (climbsPage_sublist st sessionID offset limit).subset hcm
    rw [mem_orderDesc] at h1
    simpa using (List.mem_filter.mp h1).2
  · rw [hc]
    exact (orderDesc_sorted Climb.CreatedAt _).sublist (climbsPage_sublist st sessionID offset limit)
/-- C4 (witness): session 1 has three climbs; the page with offset 0 and limit 2 holds the
two newest. -/
theorem FindByID_climbs_page_witness :
    (0 : Int) ≤ 0 ∧ (0 : Int) ≤ 2 ∧
    Session.zero.FindByID (.up storeThree) 7 1 0 2 = (rowOne.load [climbC, climbB], none) ∧
    (rowOne.load [climbC, climbB]).Climbs = climbsPage storeThree 1 0 2 ∧
    ((rowOne.load [climbC, climbB]).Climbs.length : Int) ≤ 2 :=
  ⟨by decide, by decide, by decide,
    (FindByID_climbs_page Session.zero (rowOne.load [climbC, climbB]) storeThree 7 1 0 2
      (by decide) (by decide) (by decide)).1,
    (FindByID_climbs_page Session.zero (rowOne.load [climbC, climbB]) storeThree 7 1 0 2
      (by decide) (by decide) (by decide)).2.1⟩

theorem mem_filter_byDate (s : Session) (st : Store) (userID : Int) (sessionDate : Time)
    (r : SessionRow) :
    r ∈ st.sessions.filter (fun r =>
        (decide (r.UserID = userID) && decide (r.Date = sessionDate)) &&
          (decide (s.ID = 0) || decide (r.ID = s.ID))) ↔
      r ∈ st.sessions ∧ r.UserID = userID ∧ r.Date = sessionDate ∧ (s.ID = 0 ∨ r.ID = s.ID) := by
  simp [List.mem_filter, and_assoc]

/-- C5 (amended): `FindByDate` yields one session or an error.  It returns no error exactly
when some session has the requested user and date and, if the id the receiver had before the
call is not zero, that id; it returns an error when no session has the requested user and
date; on success the receiver holds one session of the store with that user and date, and its
`Climbs` are all the climbs that point to that session, unpaginated. -/
theorem FindByDate_result (s : Session) (st : Store) (userID : Int) (sessionDate : Time) :
    ((s.FindByDate (.up st) userID sessionDate).2 = none ↔
      ∃ r ∈ st.sessions, r.UserID = userID ∧ r.Date = sessionDate ∧
        (s.ID = 0 ∨ r.ID = s.ID)) ∧
    ((∀ r ∈ st.sessions, ¬ (r.UserID = userID ∧ r.Date = sessionDate)) →
      (s.FindByDate (.up st) userID sessionDate).2 ≠ none) ∧
    ((s.FindByDate (.up st) userID sessionDate).2 = none →
      (s.FindByDate (.up st) userID sessionDate).1.row ∈ st.sessions ∧
      (s.FindByDate (.up st) userID sessionDate).1.UserID = userID ∧
      (s.FindByDate (.up st) userID sessionDate).1.Date = sessionDate ∧
      (s.FindByDate (.up st) userID sessionDate).1.Climbs =
        st.climbs.filter (fun c =>
          decide (c.SessionID = (s.FindByDate (.up st) userID sessionDate).1.ID))) := by
  rw [FindByDate_up]
  have hmem := mem_filter_byDate s st userID sessionDate
  cases hL : st.sessions.filter (fun r =>
        (decide (r.UserID = userID) && decide (r.Date = sessionDate)) &&
          (decide (s.ID = 0) || decide (r.ID = s.ID))) with
  | nil =>
    rw [hL] at hmem
    refine ⟨⟨fun h => by simp at h, ?_⟩, fun _ => by simp, fun h => by simp at h⟩
    rintro ⟨r, hr, hu, hd, hs⟩
    have : r ∈ ([] : List SessionRow) := (hmem r).mpr ⟨hr, hu, hd, hs⟩
    simp at this
  | cons r rest =>
    rw [hL] at hmem
    obtain ⟨hr, hu, hd, hs⟩ := (hmem r).mp (List.mem_cons_self r rest)
    refine ⟨⟨fun _ => ⟨r, hr, hu, hd, hs⟩, fun _ => rfl⟩, ?_, fun _ => ⟨hr, hu, hd, rfl⟩⟩
    intro h
    exact absurd ⟨hu, hd⟩ (h r hr)

/-- C5 (counterexample): user 7 has a session on date 5, yet `FindByDate` for user 7 and
date 5 on a receiver that still carries id 1 returns an error and loads nothing. -/
theorem FindByDate_receiver_id_counterexample :
    (∃ r ∈ storeTwo.sessions, r.UserID = 7 ∧ r.Date = 5) ∧
    (staleSession.FindByDate (.up storeTwo) 7 5).2 ≠ none ∧
    (staleSession.FindByDate (.up storeTwo) 7 5).1 = staleSession := by
  decide
theorem mem_joinClimbs (st : Store) (r : SessionRow) (c : Climb) :
    (r, c) ∈ joinClimbs st ↔ r ∈ st.sessions ∧ c ∈ st.climbs ∧ c.SessionID = r.ID := by
  unfold joinClimbs
  simp only [List.mem_flatMap, List.mem_map, List.mem_filter, decide_eq_true_eq, Prod.mk.injEq]
  constructor
  · rintro ⟨a, ha, c', ⟨hc, hs⟩, rfl, rfl⟩
    exact ⟨ha, hc, hs⟩
  · rintro ⟨hr, hc, hs⟩
    exact ⟨r, hr, c, ⟨hc, hs⟩, rfl, rfl⟩

theorem rows_of_key (climbs : List Climb) (q : SessionRow → Bool) (L : List SessionRow)
    (hnd : (L.map SessionRow.ID).Nodup) (r0 : SessionRow) (hr0 : r0 ∈ L) (hq : q r0 = true) :
    ((L.flatMap (fun r =>
      (climbs.filter (fun c => decide (c.SessionID = r.ID))).map (fun c => (r, c)))).filter
        (fun p => q p.1)).filter (fun p => decide (p.1.ID = r0.ID)) =
      (climbs.filter (fun c => decide (c.SessionID = r0.ID))).map (fun c => (r0, c)) := by
  induction L with
  | nil => simp at hr0
  | cons a L ih =>
    rw [List.map_cons, List.nodup_cons] at hnd
    rw [List.flatMap_cons, List.filter_append, List.filter_append]
    rcases List.mem_cons.mp hr0 with h | h
    · subst h
      have h1 : (((climbs.filter (fun c => decide (c.SessionID = r0.ID))).map
          (fun c => (r0, c))).filter (fun p => q p.1)).filter
            (fun p => decide (p.1.ID = r0.ID)) =
          (climbs.filter (fun c => decide (c.SessionID = r0.ID))).map (fun c => (r0, c)) := by
        have hin : ((climbs.filter (fun c => decide (c.SessionID = r0.ID))).map
            (fun c => (r0, c))).filter (fun p => q p.1) =
            (climbs.filter (fun c => decide (c.SessionID = r0.ID))).map (fun c => (r0, c)) := by
          rw [List.filter_eq_self]
          intro p hp
          obtain ⟨c, _, rfl⟩ := List.mem_map.mp hp
          exact hq
        rw [hin, List.filter_eq_self]
        intro p hp
        obtain ⟨c, _, rfl⟩ := List.mem_map.mp hp
        simp
      have h2 : ((L.flatMap (fun r =>
          (climbs.filter (fun c => decide (c.SessionID = r.ID))).map (fun c => (r, c)))).filter
            (fun p => q p.1)).filter (fun p => decide (p.1.ID = r0.ID)) = [] := by
        rw [List.filter_eq_nil_iff]
        intro p hp hid
        have hp1 := (List.mem_filter.mp hp).1
        obtain ⟨r, hr, hpr⟩ := List.mem_flatMap.mp hp1
        obtain ⟨c, _, rfl⟩ := List.mem_map.mp hpr
        have : r.ID = r0.ID := by simpa using hid
        exact hnd.1 (this ▸ List.mem_map_of_mem SessionRow.ID hr)
      rw [h1, h2, List.append_nil]
    · have hne : a.ID ≠ r0.ID := by
        intro he
        exact hnd.1 (he ▸ List.mem_map_of_mem SessionRow.ID h)
      have h1 : (((climbs.filter (fun c => decide (c.SessionID = a.ID))).map
          (fun c => (a, c))).filter (fun p => q p.1)).filter
            (fun p => decide (p.1.ID = r0.ID)) = [] := by
        rw [List.filter_eq_nil_iff]
        intro p hp hid
        have hp1 := (List.mem_filter.mp hp).1
        obtain ⟨c, _, rfl⟩ := List.mem_map.mp hp1
        have : a.ID = r0.ID := by simpa using hid
        exact hne this
      rw [h1, List.nil_append, ih hnd.2 h]
theorem selectSummary_of_session (SUM : List ℚ → Float64) (st : Store) (q : SessionRow → Bool)
    (hpk : st.PrimaryKey) (r0 : SessionRow) (hr0 : r0 ∈ st.sessions) (hq : q r0 = true)
    (c0 : Climb) (hc0 : c0 ∈ st.climbs) (hs : c0.SessionID = r0.ID) :
    selectSummary SUM ((joinClimbs st).filter (fun p => q p.1)) r0.ID =
      some (summaryOf SUM st r0) := by
  unfold selectSummary joinClimbs
  rw [rows_of_key st.climbs q st.sessions hpk r0 hr0 hq]
  have hne : c0 ∈ st.climbs.filter (fun c => decide (c.SessionID = r0.ID)) :=
    List.mem_filter.mpr ⟨hc0, by simpa using hs⟩
  unfold summaryOf
  cases hL : st.climbs.filter (fun c => decide (c.SessionID = r0.ID)) with
  | nil => rw [hL] at hne; simp at hne
  | cons c cs => simp [List.map_map, Function.comp_def]

theorem selectSummary_id (SUM : List ℚ → Float64) (rows : List (SessionRow × Climb)) (k : Int)
    (sm : SessionSummary) (h : selectSummary SUM rows k = some sm) : sm.ID = k := by
  unfold selectSummary at h
  split at h
  · simp at h
  · simp only [Option.some.injEq] at h
    rw [← h]

theorem mem_scan (SUM : List ℚ → Float64) (st : Store) (q : SessionRow → Bool)
    (hpk : st.PrimaryKey) (sm : SessionSummary) :
    sm ∈ (groupKeys ((joinClimbs st).filter (fun p => q p.1))).filterMap
        (selectSummary SUM ((joinClimbs st).filter (fun p => q p.1))) ↔
      ∃ r ∈ st.sessions, q r = true ∧ (∃ c ∈ st.climbs, c.SessionID = r.ID) ∧
        sm = summaryOf SUM st r := by
  rw [List.mem_filterMap]
  constructor
  · rintro ⟨k, hk, hsel⟩
    unfold groupKeys at hk
    rw [List.mem_dedup, List.mem_map] at hk
    obtain ⟨⟨r, c⟩, hp, rfl⟩ := hk
    obtain ⟨hj, hqr⟩ := List.mem_filter.mp hp
    obtain ⟨hr, hc, hs⟩ := (mem_joinClimbs st r c).mp hj
    rw [selectSummary_of_session SUM st q hpk r hr hqr c hc hs] at hsel
    exact ⟨r, hr, hqr, ⟨c, hc, hs⟩, (Option.some.inj hsel).symm⟩
  · rintro ⟨r, hr, hqr, ⟨c, hc, hs⟩, rfl⟩
    refine ⟨r.ID, ?_, selectSummary_of_session SUM st q hpk r hr hqr c hc hs⟩
    unfold groupKeys
    rw [List.mem_dedup, List.mem_map]
    exact ⟨(r, c), List.mem_filter.mpr ⟨(mem_joinClimbs st r c).mpr ⟨hr, hc, hs⟩, hqr⟩, rfl⟩

theorem mem_sessionSummaries (SUM : List ℚ → Float64) (st : Store) (userID : Int)
    (startDate endDate : Time) (sm : SessionSummary) :
    sm ∈ sessionSummaries SUM st userID startDate endDate ↔
      ∃ r ∈ st.sessions,
        (Cond.and (.eq .user_id userID) (.between .date startDate endDate)).holds r = true ∧
        (∃ c ∈ st.climbs, c.SessionID = r.ID) ∧ sm = summaryOf SUM st r := by
  unfold sessionSummaries
  simp only [List.mem_map, List.mem_filter, Cond.holds, SessionRow.col, Bool.and_eq_true,
    List.any_eq_true, decide_eq_true_eq]
  constructor
  · rintro ⟨r, ⟨hr, ⟨hu, hd⟩, hc⟩, rfl⟩
    exact ⟨r, hr, ⟨hu, hd⟩, hc, rfl⟩
  · rintro ⟨r, hr, hq, hc, rfl⟩
    exact ⟨r, ⟨hr, hq, hc⟩, rfl⟩

theorem sessionSummaries_ids_nodup (SUM : List ℚ → Float64) (st : Store) (userID : Int)
    (startDate endDate : Time) (hpk : st.PrimaryKey) :
    ((sessionSummaries SUM st userID startDate endDate).map SessionSummary.ID).Nodup := by
  unfold sessionSummaries
  rw [List.map_map]
  have : (SessionSummary.ID ∘ summaryOf SUM st) = SessionRow.ID := rfl
  rw [this]
  exact hpk.sublist ((List.filter_sublist _).map SessionRow.ID)

theorem signed_ne_of_lt (b : Bool) (v : ℚ) (h0 : 0 ≤ v) (hv : v < 9007199254740993) :
    (if b = true then (-1 : ℚ) else 1) * v ≠ 9007199254740993 := by
  cases b
  · simp only [Bool.false_eq_true, if_false, one_mul]
    exact ne_of_lt hv
  · simp only [if_true]
    intro h
    linarith

/-- No `float64` stands for `2^53 + 1`: below `2^53` every value is too small, and from
`2^53` on every value is an even whole number. -/
theorem Float64.toRat?_ne (x : Float64) : x.toRat? ≠ some 9007199254740993 := by
  have hf : x.fraction.val < 4503599627370496 := x.fraction.isLt
  have hm : (((4503599627370496 + x.fraction.val : ℕ) : ℚ)) < 9007199254740992 := by
    exact_mod_cast (by omega : 4503599627370496 + x.fraction.val < 9007199254740992)
  unfold Float64.toRat?
  by_cases h1 : x.exponent.val = 2047
  · rw [if_pos h1]
    exact Option.noConfusion
  rw [if_neg h1]
  by_cases h2 : x.exponent.val = 0
  · rw [if_pos h2]
    intro h
    refine signed_ne_of_lt x.sign _ (by positivity) ?_ (Option.some.inj h)
    have hq : ((x.fraction.val : ℕ) : ℚ) / 2 ^ 1074 ≤ (x.fraction.val : ℚ) :=
      div_le_self (Nat.cast_nonneg _) (one_le_pow₀ (by norm_num))
    have hlt : ((x.fraction.val : ℕ) : ℚ) < 4503599627370496 := by exact_mod_cast hf
    linarith
  rw [if_neg h2]
  by_cases h3 : x.exponent.val < 1075
  · rw [if_pos h3]
    intro h
    refine signed_ne_of_lt x.sign _ (by positivity) ?_ (Option.some.inj h)
    have hq : (((4503599627370496 + x.fraction.val : ℕ) : ℚ)) / 2 ^ (1075 - x.exponent.val) ≤
        ((4503599627370496 + x.fraction.val : ℕ) : ℚ) :=
      div_le_self (Nat.cast_nonneg _) (one_le_pow₀ (by norm_num))
    linarith
  rw [if_neg h3]
  intro h
  have h := Option.some.inj h
  cases hs : x.sign
  · rw [hs] at h
    simp only [Bool.false_eq_true, if_false, one_mul] at h
    have hn : (4503599627370496 + x.fraction.val) * 2 ^ (x.exponent.val - 1075) =
        9007199254740993 := by exact_mod_cast h
    cases hj : x.exponent.val - 1075 with
    | zero =>
      rw [hj, pow_zero, mul_one] at hn
      omega
    | succ j =>
      rw [hj, pow_succ, ← mul_assoc] at hn
      omega
  · rw [hs] at h
    simp only [if_true] at h
    have hpos : (0 : ℚ) ≤ ((4503599627370496 + x.fraction.val : ℕ) : ℚ) *
        2 ^ (x.exponent.val - 1075) := by positivity
    linarith

/-- C2 (witness): user 7 has sessions 1 and 2; the page with offset 1 and limit 5 holds the
older one only. -/
theorem FindAllSessions_page_witness :
    (0 : Int) ≤ 1 ∧ (0 : Int) ≤ 5 ∧
    sessionsPage storeThree 7 1 5 = [rowOne] ∧
    ∃ sessions, FindAllSessions (.up storeThree) 7 1 5 = (some sessions, none) ∧
      (sessions.length : Int) ≤ 5 ∧
      (∀ s ∈ sessions, s.UserID = 7) ∧
      sessions.Pairwise (fun a b => b.CreatedAt ≤ a.CreatedAt) ∧
      sessions.map Session.row = sessionsPage storeThree 7 1 5 :=
  ⟨by decide, by decide, by decide,
    FindAllSessions_page storeThree 7 1 5 (by decide) (by decide)⟩

theorem HandleAPIError_some (ctx : Context) (message : String) (e : Error) (status : Nat) :
    HandleAPIError ctx message (some e) status =
      (ctx.JSON status [("error", .str message)], true) := rfl

theorem HandleAPIError_none (ctx : Context) (message : String) (status : Nat) :
    HandleAPIError ctx message none status = (ctx, false) := rfl

/-- C7: when the body does not bind, `UserRegisterHandler` writes one response, status 400
with the fixed message under key "error", and returns with the state untouched: table
`users` is unchanged and no services function has been called, whatever the services are. -/
theorem UserRegisterHandler_bad_body (env : Env) (ctx : Context) (w : World)
    (user : User) (e : Error) (hbind : env.ShouldBindUser ctx = (user, some e)) :
    (UserRegisterHandler env ctx w).1.written = ctx.written ++
      [{ status := 400, payload :=
        [("error", .str "Invalid input. Please check the submitted data and try again.")] }] ∧
    (UserRegisterHandler env ctx w).2.users = w.users ∧
    (UserRegisterHandler env ctx w).2.calls = w.calls := by
  have h : UserRegisterHandler env ctx w = (ctx.JSON StatusBadRequest
      [("error", .str "Invalid input. Please check the submitted data and try again.")], w) := by
    unfold UserRegisterHandler
    rw [hbind]
    rfl
  rw [h]
  exact ⟨rfl, rfl, rfl⟩

/-- C7 (witness): an empty body does not bind; the response is 400 and nothing is stored. -/
theorem UserRegisterHandler_bad_body_witness :
    (UserRegisterHandler exampleEnv (request "" none) worldEmpty).1.written =
      [{ status := 400, payload :=
        [("error", .str "Invalid input. Please check the submitted data and try again.")] }] ∧
    (UserRegisterHandler exampleEnv (request "" none) worldEmpty).2.users = [] ∧
    (UserRegisterHandler exampleEnv (request "" none) worldEmpty).2.calls = [] :=
  UserRegisterHandler_bad_body exampleEnv (request "" none) worldEmpty
    { ID := 0, Username := "", Password := "" } (.base "EOF") (by decide)

/-- C8: when the body binds and `services.VerifyUser` returns an error, `UserLoginHandler`
writes one response, status 401 with the fixed message under key "error"; that response has
no "token" field, and no response with status 200 is written. -/
theorem UserLoginHandler_wrong_password (env : Env) (ctx : Context) (w : World)
    (loginInput : User) (users : List User) (jwt : String) (e : Error)
    (hbind : env.ShouldBindUser ctx = (loginInput, none))
    (hverify : env.VerifyUser w.users loginInput.Username loginInput.Password =
      (users, jwt, some e)) :
    (UserLoginHandler env ctx w).1.written = ctx.written ++
      [{ status := 401, payload := [("error", .str
        "Invalid username or password. Please check your credentials and try again.")] }] ∧
    (∀ r ∈ (UserLoginHandler env ctx w).1.written.drop ctx.written.length,
      r.field "token" = none ∧ r.status ≠ 200) := by
  have h : (UserLoginHandler env ctx w).1.written = ctx.written ++
      [{ status := 401, payload := [("error", .str
        "Invalid username or password. Please check your credentials and try again.")] }] := by
    unfold UserLoginHandler World.callVerifyUser
    rw [hbind]
    simp only [HandleAPIError_none, hverify, HandleAPIError_some]
    rfl
  refine ⟨h, ?_⟩
  rw [h, List.drop_left]
  intro r hr
  rw [List.mem_singleton] at hr
  subst hr
  exact ⟨by decide, by decide⟩

/-- C8 (witness): alice is registered with password "secret"; a login with password "wrong"
is answered with 401 and no token. -/
theorem UserLoginHandler_wrong_password_witness :
    (UserLoginHandler exampleEnv (request "wrong" none) worldAlice).1.written =
      [{ status := 401, payload := [("error", .str
        "Invalid username or password. Please check your credentials and try again.")] }] ∧
    (∀ r ∈ (UserLoginHandler exampleEnv (request "wrong" none) worldAlice).1.written,
      r.field "token" = none ∧ r.status ≠ 200) :=
  UserLoginHandler_wrong_password exampleEnv (request "wrong" none) worldAlice
    { ID := 0, Username := "alice", Password := "wrong" } [alice] "" (.base "wrong password")
    (by decide) (by decide)
theorem UpdateUserPassword_error_unchanged (env : Env) (users : List User) (userID : Int)
    (currentPassword newPassword : String) (e : Error)
    (h : (UpdateUserPassword env users userID currentPassword newPassword).2 = some e) :
    (UpdateUserPassword env users userID currentPassword newPassword).1 = users := by
  unfold UpdateUserPassword at h ⊢
  cases hf : users.find? (fun u => decide (u.ID = userID)) with
  | none => rfl
  | some u =>
    rw [hf] at h
    by_cases hc : env.checkPassword u.Password currentPassword = true
    · simp [hc] at h
    · simp [hc]

/-- C9: when the body binds, the bearer token yields a user id and
`services.UpdateUserPassword` returns an error (the current password is incorrect),
`UserProfileHandler` writes one response, status 401 with the fixed message under key
"error"; no response with status 200 or with a "message" field is written, and table `users`,
with every stored password hash, is the same after the request as before it. -/
theorem UserProfileHandler_wrong_current_password (env : Env) (ctx : Context) (w : World)
    (updateInput : PasswordUpdateInput) (userID : Int) (e : Error)
    (hbind : env.ShouldBindPasswordUpdate ctx = (updateInput, none))
    (htoken : env.ExtractUserIdFromJWT ctx = (userID, none))
    (hupdate : (UpdateUserPassword env w.users userID updateInput.CurrentPassword
      updateInput.NewPassword).2 = some e) :
    (UserProfileHandler env ctx w).1.written = ctx.written ++
      [{ status := 401, payload := [("error", .str
        "Invalid password. Please check your credentials and try again.")] }] ∧
    (∀ r ∈ (UserProfileHandler env ctx w).1.written.drop ctx.written.length,
      r.field "message" = none ∧ r.status ≠ 200) ∧
    (UserProfileHandler env ctx w).2.users = w.users := by
  have hu := UpdateUserPassword_error_unchanged env w.users userID updateInput.CurrentPassword
    updateInput.NewPassword e hupdate
  have h : UserProfileHandler env ctx w = (ctx.JSON StatusUnauthorized
      [("error", .str "Invalid password. Please check your credentials and try again.")],
      { users := w.users, calls := w.calls ++ ["UpdateUserPassword"] }) := by
    unfold UserProfileHandler World.callUpdateUserPassword
    rw [hbind]
    simp only [HandleAPIError_none, htoken]
    rw [show UpdateUserPassword env w.users userID updateInput.CurrentPassword
        updateInput.NewPassword = (w.users, some e) from Prod.ext hu hupdate]
    rfl
  rw [h]
  refine ⟨rfl, ?_, rfl⟩
  show ∀ r ∈ (ctx.written ++ [({ status := StatusUnauthorized, payload := [("error", .str
    "Invalid password. Please check your credentials and try again.")] } : Response)]).drop
      ctx.written.length, r.field "message" = none ∧ r.status ≠ 200
  rw [List.drop_left]
  intro r hr
  rw [List.mem_singleton] at hr
  subst hr
  exact ⟨by decide, by decide⟩

/-- C9 (witness): alice's stored hash is that of "secret"; an update that supplies "wrong"
as the current password is answered with 401 and the stored hash stays. -/
theorem UserProfileHandler_wrong_current_password_witness :
    (UpdateUserPassword exampleEnv worldAlice.users 1 "wrong" "fresh").2 =
      some (.base "incorrect password") ∧
    (UserProfileHandler exampleEnv (request "wrong" (some "t")) worldAlice).1.written =
      [{ status := 401, payload := [("error", .str
        "Invalid password. Please check your credentials and try again.")] }] ∧
    (UserProfileHandler exampleEnv (request "wrong" (some "t")) worldAlice).2.users = [alice] :=
  ⟨by decide,
    (UserProfileHandler_wrong_current_password exampleEnv (request "wrong" (some "t")) worldAlice
      { CurrentPassword := "wrong", NewPassword := "fresh" } 1 (.base "incorrect password")
      (by decide) (by decide) (by decide)).1,
    (UserProfileHandler_wrong_current_password exampleEnv (request "wrong" (some "t")) worldAlice
      { CurrentPassword := "wrong", NewPassword := "fresh" } 1 (.base "incorrect password")
      (by decide) (by decide) (by decide)).2.2⟩

/-- C10 (the code at a successful registration): binding, `PrepareUser` and `CreateUser`
succeed and the created user has id 1; the response is 200 with the success message, and the
field "user_id" holds the whole user struct, password hash included, not the number 1. -/
theorem UserRegisterHandler_user_id_field :
    (UserRegisterHandler exampleEnv (request "secret" none) worldEmpty).2.users = [alice] ∧
    (UserRegisterHandler exampleEnv (request "secret" none) worldEmpty).1.written =
      [{ status := 200, payload :=
        [("message", .str "User registered successfully"), ("user_id", .user alice)] }] ∧
    (∀ r ∈ (UserRegisterHandler exampleEnv (request "secret" none) worldEmpty).1.written,
      r.field "user_id" = some (.user alice) ∧ r.field "user_id" ≠ some (.int alice.ID)) := by
  decide
end VertiLog
